import Mathlib

/-!
Verification of the revanity core: pattern matcher, hex-pattern validation,
name-hash derivation (SHA-256 truncated to 10 bytes), difficulty estimator,
and the generator/worker orchestration modelled as a small-step transition
system.  All definitions are shallow embeddings of the Python sources in
`src/revanity` (`matcher.py`, `core.py`, `generator.py`, `worker.py`).
-/

/-! ## matcher.py: match modes and compiled patterns -/

/-- `MatchMode` from `matcher.py` (enum values "prefix", "suffix",
"contains", "regex"); constructor names are abbreviated to `pfx`, `sfx`,
`sub`, `rex`. -/
inductive MatchMode where
  | pfx
  | sfx
  | sub
  | rex
deriving DecidableEq, Repr

/-- `MatchPattern` dataclass from `matcher.py`: mode, pattern string and
case-sensitivity flag. -/
structure MatchPattern where
  mode : MatchMode
  pattern : String
  case_sensitive : Bool := false
deriving DecidableEq, Repr

/-- `CompiledPattern` from `matcher.py`.  The compiled regex object is
opaque to this development: it is represented by the data `re.compile`
receives, the pattern string together with the ignore-case flag
(`re.IGNORECASE` is passed exactly when `case_sensitive` is false);
`none` models the Python `None` stored for non-regex modes. -/
structure CompiledPattern where
  mode : MatchMode
  pattern : String
  regex : Option (String × Bool)
deriving DecidableEq, Repr

/-- `MatchPattern.compile` from `matcher.py`: regex mode compiles the
pattern with `re.IGNORECASE` unless case-sensitive; other modes store no
regex object. -/
def MatchPattern.compile (p : MatchPattern) : CompiledPattern :=
  match p.mode with
  | MatchMode.rex => ⟨p.mode, p.pattern, some (p.pattern, !p.case_sensitive)⟩
  | _ => ⟨p.mode, p.pattern, none⟩

/-- `pat` occurs at the start of `text` (Python `str.startswith`). -/
def listStartsWith : List Char → List Char → Bool
  | _, [] => true
  | [], _ :: _ => false
  | a :: text, b :: pat => a == b && listStartsWith text pat

/-- `pat` occurs at the end of `text` (Python `str.endswith`). -/
def listEndsWith (text pat : List Char) : Bool :=
  listStartsWith text.reverse pat.reverse

/-- `pat` occurs somewhere inside `text` (Python `in` on strings). -/
def listHasSub : List Char → List Char → Bool
  | [], pat => pat.isEmpty
  | a :: rest, pat => listStartsWith (a :: rest) pat || listHasSub rest pat

/-- Python's substring test `pattern in hex_addr`. -/
def strContains (pattern hex_addr : String) : Bool :=
  listHasSub hex_addr.data pattern.data

/-- `CompiledPattern.matches` from `matcher.py`.  The behaviour of the
regex engine's unanchored `search` is abstracted as the parameter
`rsearch pattern ignoreCase text`; the three hex modes use string
operations exactly as the source does (`startswith`, `endswith`, `in`).
The final `return False` of the source (unreachable for the four enum
members) corresponds to the `none` regex case returning `false`. -/
def CompiledPattern.matches (rsearch : String → Bool → String → Bool)
    (c : CompiledPattern) (hex_addr : String) : Bool :=
  match c.mode with
  | MatchMode.pfx => listStartsWith hex_addr.data c.pattern.data
  | MatchMode.sfx => listEndsWith hex_addr.data c.pattern.data
  | MatchMode.sub => strContains c.pattern hex_addr
  | MatchMode.rex =>
    match c.regex with
    | some (pat, ic) => rsearch pat ic hex_addr
    | none => false

/-- Modelled from the spec (§4.2, refinement side of C1): the semantic
predicate of a MatchSpec — prefix → starts-with, suffix → ends-with,
contains → substring anywhere, regex → unanchored search, case-insensitive
unless case-sensitivity was requested. -/
def semanticPredicate (rsearch : String → Bool → String → Bool)
    (spec : MatchPattern) (x : String) : Bool :=
  match spec.mode with
  | MatchMode.pfx => listStartsWith x.data spec.pattern.data
  | MatchMode.sfx => listEndsWith x.data spec.pattern.data
  | MatchMode.sub => strContains spec.pattern x
  | MatchMode.rex => rsearch spec.pattern (!spec.case_sensitive) x

/-- The characters of the literal `"0123456789abcdef"` that
`validate_hex_pattern` checks membership in. -/
def hexDigitsLower : List Char :=
  ['0', '1', '2', '3', '4', '5', '6', '7']
    ++ ['8', '9', 'a', 'b', 'c', 'd', 'e', 'f']

/-- The uppercase hex letters. -/
def hexDigitsUpper : List Char := ['A', 'B', 'C', 'D', 'E', 'F']

/-- Lowercase hex digit predicate (`c in "0123456789abcdef"` in the
source). -/
def isHexLower (c : Char) : Bool := hexDigitsLower.contains c

/-- Case-insensitive hex digit: `0-9a-fA-F`. -/
def isHexCI (c : Char) : Bool :=
  hexDigitsLower.contains c || hexDigitsUpper.contains c

/-- The characters Python's `str.strip()` removes: exactly the code
points on which `str.isspace()` holds — U+0009–U+000D, U+001C–U+0020,
U+0085, U+00A0, U+1680, U+2000–U+200A, U+2028, U+2029, U+202F, U+205F
and U+3000. -/
def pyIsSpace (c : Char) : Bool :=
  (9 ≤ c.toNat && c.toNat ≤ 13) || (28 ≤ c.toNat && c.toNat ≤ 32) ||
  c.toNat = 133 || c.toNat = 160 || c.toNat = 5760 ||
  (8192 ≤ c.toNat && c.toNat ≤ 8202) || c.toNat = 8232 || c.toNat = 8233 ||
  c.toNat = 8239 || c.toNat = 8287 || c.toNat = 12288

/-- Python `str.lower()` restricted to ASCII: `A`–`Z` map to `a`–`z`,
everything else is unchanged.  Full Unicode lowercasing differs only on
non-ASCII letters; since no non-ASCII character lowercases into the hex
digits `0-9a-f` or into the whitespace set, and whitespace characters
are fixed by lowercasing, this restriction never changes which branch
`validate_hex_pattern` takes nor its returned value. -/
def pyLowerChar (c : Char) : Char :=
  match c with
  | 'A' => 'a' | 'B' => 'b' | 'C' => 'c' | 'D' => 'd' | 'E' => 'e'
  | 'F' => 'f' | 'G' => 'g' | 'H' => 'h' | 'I' => 'i' | 'J' => 'j'
  | 'K' => 'k' | 'L' => 'l' | 'M' => 'm' | 'N' => 'n' | 'O' => 'o'
  | 'P' => 'p' | 'Q' => 'q' | 'R' => 'r' | 'S' => 's' | 'T' => 't'
  | 'U' => 'u' | 'V' => 'v' | 'W' => 'w' | 'X' => 'x' | 'Y' => 'y'
  | 'Z' => 'z'
  | _ => c

/-- Python `str.strip()`: drop leading and trailing whitespace. -/
def pyStrip (l : List Char) : List Char :=
  ((l.dropWhile pyIsSpace).reverse.dropWhile pyIsSpace).reverse

/-- `validate_hex_pattern` from `matcher.py`: lowercase, strip, then
reject empty / non-hex / length > 32, in that order; on success return the
cleaned string.  A raised `ValueError` is modelled as `Except.error` with
a short form of the message. -/
def validate_hex_pattern (pattern : String) : Except String String :=
  let cleaned := pyStrip (pattern.data.map pyLowerChar)
  if cleaned = [] then Except.error "Pattern cannot be empty."
  else if !(cleaned.all isHexLower) then Except.error "non-hex characters"
  else if cleaned.length > 32 then Except.error "exceeds maximum address length"
  else Except.ok (String.mk cleaned)

/-! ## Claims C1 -/

/-- C1: for every MatchSpec and every 32-character hex string, the
compiled matcher agrees with the spec's semantic predicate: prefix ↔
starts-with, suffix ↔ ends-with, contains ↔ substring, regex ↔ unanchored
search with case-insensitivity unless requested.  The regex engine is an
arbitrary parameter applied identically on both sides, so the theorem
holds for any engine. -/
theorem compile_matches_semanticPredicate
    (rsearch : String → Bool → String → Bool) (spec : MatchPattern)
    (x : String) (hlen : x.length = 32) (hhex : x.data.all isHexLower = true) :
    CompiledPattern.matches rsearch (MatchPattern.compile spec) x
      = semanticPredicate rsearch spec x := by
  cases hm : spec.mode <;>
    simp [MatchPattern.compile, CompiledPattern.matches, semanticPredicate, hm]

/-- Witness for C1 at a concrete spec and 32-character hex string. -/
theorem compile_matches_semanticPredicate_witness :
    ("0123456789abcdef0123456789abcdef" : String).length = 32 ∧
    CompiledPattern.matches (fun _ _ _ => false)
        (MatchPattern.compile ⟨MatchMode.pfx, "0123", false⟩)
        "0123456789abcdef0123456789abcdef"
      = semanticPredicate (fun _ _ _ => false) ⟨MatchMode.pfx, "0123", false⟩
        "0123456789abcdef0123456789abcdef" :=
  ⟨by decide, compile_matches_semanticPredicate (fun _ _ _ => false)
    ⟨MatchMode.pfx, "0123", false⟩ "0123456789abcdef0123456789abcdef"
    (by decide) (by decide)⟩

/-! ## core.py: SHA-256 and name-hash derivation

A byte is a `Nat` below 256; a 32-bit word is a `Nat` below `M32 = 2^32`.
`sha256` is the full FIPS 180-4 SHA-256 over a list of bytes; `utf8Encode`
is standard UTF-8 encoding of a string.  These model `hashlib.sha256` and
`str.encode("utf-8")` as used by `compute_name_hash` in `core.py`. -/

def M32 : Nat := 4294967296

def rotr (n x : Nat) : Nat := ((x >>> n) ||| (x <<< (32 - n))) % M32

def bigSigma0 (x : Nat) : Nat := (rotr 2 x) ^^^ (rotr 13 x) ^^^ (rotr 22 x)

def bigSigma1 (x : Nat) : Nat := (rotr 6 x) ^^^ (rotr 11 x) ^^^ (rotr 25 x)

def smallSigma0 (x : Nat) : Nat := (rotr 7 x) ^^^ (rotr 18 x) ^^^ (x >>> 3)

def smallSigma1 (x : Nat) : Nat := (rotr 17 x) ^^^ (rotr 19 x) ^^^ (x >>> 10)

def shaK : List Nat :=
  [1116352408, 1899447441, 3049323471, 3921009573, 961987163,
   1508970993, 2453635748, 2870763221, 3624381080, 310598401,
   607225278, 1426881987, 1925078388, 2162078206, 2614888103,
   3248222580, 3835390401, 4022224774, 264347078, 604807628,
   770255983, 1249150122, 1555081692, 1996064986, 2554220882,
   2821834349, 2952996808, 3210313671, 3336571891, 3584528711,
   113926993, 338241895, 666307205, 773529912, 1294757372,
   1396182291, 1695183700, 1986661051, 2177026350, 2456956037,
   2730485921, 2820302411, 3259730800, 3345764771, 3516065817,
   3600352804, 4094571909, 275423344, 430227734, 506948616,
   659060556, 883997877, 958139571, 1322822218, 1537002063,
   1747873779, 1955562222, 2024104815, 2227730452, 2361852424,
   2428436474, 2756734187, 3204031479, 3329325298]

def shaH0 : List Nat :=
  [1779033703, 3144134277, 1013904242, 2773480762,
   1359893119, 2600822924, 528734635, 1541459225]

def wStep (w : List Nat) : List Nat :=
  let n := w.length
  let t2 := w.getD (n - 2) 0
  let t7 := w.getD (n - 7) 0
  let t15 := w.getD (n - 15) 0
  let t16 := w.getD (n - 16) 0
  w ++ [(smallSigma1 t2 + t7 + smallSigma0 t15 + t16) % M32]

def buildW (block : List Nat) : List Nat := wStep^[48] block

def shaRound (st : List Nat) (k : Nat) (w : Nat) : List Nat :=
  match st with
  | [a, b, c, d, e, f, g, h] =>
    let ch := (e &&& f) ^^^ ((e ^^^ 0xffffffff) &&& g)
    let maj := (a &&& b) ^^^ (a &&& c) ^^^ (b &&& c)
    let t1 := (h + bigSigma1 e + ch + k + w) % M32
    let t2 := (bigSigma0 a + maj) % M32
    [(t1 + t2) % M32, a, b, c, (d + t1) % M32, e, f, g]
  | _ => st

def compress (h : List Nat) (block : List Nat) : List Nat :=
  let w := buildW block
  let fin := (List.zip shaK w).foldl (fun st kw => shaRound st kw.1 kw.2) h
  List.zipWith (fun x y => (x + y) % M32) h fin

def toWords : List Nat → List Nat
  | b0 :: b1 :: b2 :: b3 :: rest =>
    (((b0 * 256 + b1) * 256 + b2) * 256 + b3) :: toWords rest
  | _ => []

def be8 (n : Nat) : List Nat :=
  [(n >>> 56) % 256, (n >>> 48) % 256, (n >>> 40) % 256, (n >>> 32) % 256,
   (n >>> 24) % 256, (n >>> 16) % 256, (n >>> 8) % 256, n % 256]

def shaPad (msg : List Nat) : List Nat :=
  let L := msg.length
  let zeros := (64 - ((L + 9) % 64)) % 64
  msg ++ [0x80] ++ List.replicate zeros 0 ++ be8 (8 * L)

def sha256Aux : Nat → List Nat → List Nat → List Nat
  | 0, h, _ => h
  | fuel + 1, h, msg =>
    match msg with
    | [] => h
    | _ => sha256Aux fuel (compress h (toWords (msg.take 64))) (msg.drop 64)

def sha256 (msg : List Nat) : List Nat :=
  let padded := shaPad msg
  let hFin := sha256Aux (padded.length / 64 + 1) shaH0 padded
  (hFin.map fun w => [(w >>> 24) % 256, (w >>> 16) % 256, (w >>> 8) % 256, w % 256]).flatten

def utf8Char (c : Char) : List Nat :=
  let n := c.toNat
  if n < 0x80 then [n]
  else if n < 0x800 then [0xc0 ||| (n >>> 6), 0x80 ||| (n &&& 0x3f)]
  else if n < 0x10000 then
    [0xe0 ||| (n >>> 12), 0x80 ||| ((n >>> 6) &&& 0x3f), 0x80 ||| (n &&& 0x3f)]
  else
    [0xf0 ||| (n >>> 18), 0x80 ||| ((n >>> 12) &&& 0x3f),
     0x80 ||| ((n >>> 6) &&& 0x3f), 0x80 ||| (n &&& 0x3f)]

def utf8Encode (s : String) : List Nat := (s.data.map utf8Char).flatten

def NAME_HASH_LENGTH : Nat := 80

def compute_name_hash (dest_name : String) : List Nat :=
  (sha256 (utf8Encode dest_name)).take (NAME_HASH_LENGTH / 8)

/-- `LXMF_NAME_HASH = bytes.fromhex("6ec60bc318e2c0f0d908")` from `core.py`. -/
def LXMF_NAME_HASH : List Nat :=
  [0x6e, 0xc6, 0x0b, 0xc3, 0x18, 0xe2, 0xc0, 0xf0, 0xd9, 0x08]

/-- `NOMADNET_NAME_HASH = bytes.fromhex("213e6311bcec54ab4fde")` from `core.py`. -/
def NOMADNET_NAME_HASH : List Nat :=
  [0x21, 0x3e, 0x63, 0x11, 0xbc, 0xec, 0x54, 0xab, 0x4f, 0xde]

/-- `DEST_NAME_HASHES` dict from `core.py` as an association list. -/
def DEST_NAME_HASHES : List (String × List Nat) :=
  [("lxmf.delivery", LXMF_NAME_HASH), ("nomadnetwork.node", NOMADNET_NAME_HASH)]

/-- Dict lookup `DEST_NAME_HASHES[dest_type]` (as used in `generator.py`). -/
def lookupNameHash (dest_type : String) : Option (List Nat) :=
  (DEST_NAME_HASHES.find? (fun p => p.1 == dest_type)).map Prod.snd

/-! ## Claim C3 -/

/-- C3: the well-known namespaces "lxmf.delivery" and "nomadnetwork.node"
resolve to the precomputed NameTags `6ec60bc318e2c0f0d908` and
`213e6311bcec54ab4fde`, and the general derivation (SHA-256 of the UTF-8
namespace truncated to 10 bytes) agrees with those constants. -/
theorem name_hash_constants :
    lookupNameHash "lxmf.delivery" = some LXMF_NAME_HASH ∧
    lookupNameHash "nomadnetwork.node" = some NOMADNET_NAME_HASH ∧
    compute_name_hash "lxmf.delivery" = LXMF_NAME_HASH ∧
    compute_name_hash "nomadnetwork.node" = NOMADNET_NAME_HASH := by
  refine ⟨by decide, by decide, by decide, by decide⟩

/-! ## generator.py: the VanityGenerator orchestrator

The orchestrator is modelled as a record of its Python attributes.  Result
values are an abstract type `R` (the orchestrator never inspects them, it
only moves them from the queue into `results`).  Wall-clock fields
(`_start_time`, per-result `elapsed`/`rate`) are real-time quantities not
referenced by any claim and are omitted.  `Optional` attributes that are
`None` until `start()` runs (`_result_queue`, `_stop_event`, `_counter`)
are `Option`s. -/

structure GenState (R : Type) where
  pattern_str : String
  match_pattern : MatchPattern
  name_hash : List Nat
  dest_type : String
  num_workers : Nat
  workers : List Nat
  result_queue : Option (List R)
  stop_event : Option Bool
  counter : Option Nat
  results : List R
  is_running : Bool
deriving Repr

/-- The three modes whose patterns `VanityGenerator.__init__` validates. -/
def hexModes : List MatchMode := [MatchMode.pfx, MatchMode.sfx, MatchMode.sub]

/-- Python `dest_type.split(".")` on character lists: split at every dot,
keeping empty parts (`"".split(".") == [""]`). -/
def splitOnDot : List Char → List (List Char)
  | [] => [[]]
  | c :: rest =>
    let r := splitOnDot rest
    if c = '.' then [] :: r
    else
      match r with
      | h :: t => (c :: h) :: t
      | [] => [[c]]

/-- `VanityGenerator.__init__` from `generator.py`.  `cpu_count` stands for
the value of Python's `(os.cpu_count() or 2)`.  A raised `ValueError` is an
`Except.error`. -/
def VanityGenerator.init (R : Type) (pattern : String) (mode : MatchMode)
    (dest_type : String) (num_workers : Nat) (case_sensitive : Bool)
    (cpu_count : Nat) : Except String (GenState R) :=
  match (if mode ∈ hexModes then validate_hex_pattern pattern
         else Except.ok pattern) with
  | Except.error e => Except.error e
  | Except.ok pattern_str =>
    match lookupNameHash dest_type with
    | some h =>
      Except.ok
        { pattern_str := pattern_str
          match_pattern := ⟨mode, pattern_str, case_sensitive⟩
          name_hash := h
          dest_type := dest_type
          num_workers := if num_workers > 0 then num_workers
                         else max 1 (cpu_count - 1)
          workers := [], result_queue := none, stop_event := none
          counter := none, results := [], is_running := false }
    | none =>
      if (splitOnDot dest_type.data).length < 2 then
        Except.error ("Invalid destination type: " ++ dest_type)
      else
        Except.ok
          { pattern_str := pattern_str
            match_pattern := ⟨mode, pattern_str, case_sensitive⟩
            name_hash := compute_name_hash dest_type
            dest_type := dest_type
            num_workers := if num_workers > 0 then num_workers
                           else max 1 (cpu_count - 1)
            workers := [], result_queue := none, stop_event := none
            counter := none, results := [], is_running := false }

/-- `VanityGenerator.start` from `generator.py`: guard against a running
generator, then reset queue/event/counter/results and spawn
`num_workers` processes (appended to `workers`, as the source appends to
`self._workers` without clearing it).  The raised `RuntimeError` is an
`Except.error`; in that case the Python method mutates nothing, which the
pure model reflects by returning no state. -/
def GenState.start {R : Type} (g : GenState R) : Except String (GenState R) :=
  if g.is_running then Except.error "Generator is already running"
  else Except.ok
    { g with
      result_queue := some []
      stop_event := some false
      counter := some 0
      results := []
      is_running := true
      workers := g.workers ++ List.range g.num_workers }

/-- `VanityGenerator.stop` from `generator.py`: set the stop event if one
exists, join/terminate and clear all workers, drain the result queue into
`results`, mark not running, and return the collected results. -/
def GenState.stop {R : Type} (g : GenState R) : List R × GenState R :=
  let drained := match g.result_queue with
    | some q => q
    | none => []
  let g' : GenState R :=
    { g with
      stop_event := g.stop_event.map (fun _ => true)
      workers := []
      result_queue := g.result_queue.map (fun _ => [])
      results := g.results ++ drained
      is_running := false }
  (g'.results, g')

/-! ## Claims C5, C6, C7 -/

/-- C5: calling `start()` while already running raises
`AlreadyRunningError` (`RuntimeError("Generator is already running")` in
the source).  The guard is the first statement of `start()`, so no workers
are spawned and no state is mutated; the pure model returns only the
error. -/
theorem start_already_running {R : Type} (g : GenState R)
    (h : g.is_running = true) :
    GenState.start g = Except.error "Generator is already running" := by
  simp [GenState.start, h]

/-- Witness for C5: a concrete running generator state. -/
theorem start_already_running_witness :
    GenState.start
      (R := Unit)
      { pattern_str := "0", match_pattern := ⟨MatchMode.pfx, "0", false⟩
        name_hash := LXMF_NAME_HASH, dest_type := "lxmf.delivery"
        num_workers := 1, workers := [0], result_queue := some []
        stop_event := some false, counter := some 0, results := []
        is_running := true }
      = Except.error "Generator is already running" :=
  start_already_running _ rfl

/-- C6: `stop()` is idempotent: a second call directly after a first one
changes no state and returns the same already-collected result list, and
`stop()` always returns a (possibly empty) list, whatever the state —
in particular before any match was found. -/
theorem stop_idempotent {R : Type} (g : GenState R) :
    GenState.stop (GenState.stop g).2
      = ((GenState.stop g).1, (GenState.stop g).2) := by
  cases hq : g.result_queue <;> cases he : g.stop_event <;>
    simp [GenState.stop, hq, he]

/-- C7: configuration validation fails fast at construction: a custom
destination namespace lacking the two-part `app.aspect` form (no `.`
separator and not one of the two well-known namespaces), or an invalid
pattern in a hex mode, makes `__init__` raise a `ValueError`
synchronously.  Workers exist only in `start()`, and the search-side
definitions (`GenState.start`, `GenState.stop`, the worker step relation)
are total functions/relations with no error outcome, so a validation
error cannot occur during the search itself. -/
theorem init_fail_fast (R : Type) (pattern : String) (mode : MatchMode)
    (dest_type : String) (num_workers : Nat) (case_sensitive : Bool)
    (cpu_count : Nat)
    (h : (mode ∈ hexModes ∧ ∃ e, validate_hex_pattern pattern = Except.error e)
       ∨ (lookupNameHash dest_type = none
          ∧ (splitOnDot dest_type.data).length < 2)) :
    ∃ e, VanityGenerator.init R pattern mode dest_type num_workers
      case_sensitive cpu_count = Except.error e := by
  rcases h with ⟨hm, e, he⟩ | ⟨hl, hlen⟩
  · exact ⟨e, by simp [VanityGenerator.init, hm, he]⟩
  · cases hv : (if mode ∈ hexModes then validate_hex_pattern pattern
                else Except.ok pattern) with
    | error e => exact ⟨e, by simp [VanityGenerator.init, hv]⟩
    | ok p =>
      exact ⟨"Invalid destination type: " ++ dest_type,
        by simp [VanityGenerator.init, hv, hl, hlen]⟩

/-- Witness for C7: a namespace without a `.` separator is rejected at
construction. -/
theorem init_fail_fast_witness :
    ∃ e, VanityGenerator.init Unit "abc" MatchMode.pfx "invalid" 0 false 4
      = Except.error e :=
  init_fail_fast Unit "abc" MatchMode.pfx "invalid" 0 false 4
    (Or.inr ⟨by decide, by decide⟩)

/-! ## matcher.py: estimate_difficulty

Python computes `expected = (16 ** n) / positions` with float (IEEE-754
binary64) division in contains mode, and keeps the exact int `16 ** n` in
prefix/suffix mode.  Numbers are modelled as exact fractions `(num, den)`
of naturals; `rn64Pair` is binary64 round-to-nearest-even, so the model
reproduces the float quotient exactly. -/

/-- Round the positive rational `num/den` to the nearest IEEE-754 binary64
value (round-to-nearest, ties-to-even), returned as an exact fraction.
`eup`/`edn` accumulate the binary exponent while `num/den` is scaled into
the mantissa range `[2^52, 2^53)`; the fuel bounds the scaling loop. -/
def rn64Pair : Nat → Nat → Nat → Nat → Nat → Nat × Nat
  | 0, _, _, _, _ => (0, 1)
  | fuel + 1, num, den, eup, edn =>
    if num / den ≥ 2 ^ 53 then rn64Pair fuel num (den * 2) (eup + 1) edn
    else if num / den < 2 ^ 52 then rn64Pair fuel (num * 2) den eup (edn + 1)
    else
      let m0 := num / den
      let r := num % den
      let m := if 2 * r > den ∨ (2 * r = den ∧ m0 % 2 = 1) then m0 + 1 else m0
      (m * 2 ^ eup, 2 ^ edn)

/-- The IEEE-754 binary64 value nearest to `num/den`, as an exact
(unreduced) fraction. -/
def rn64 (num den : Nat) : Nat × Nat := rn64Pair 5000 num den 0 0

/-- Python `int()` of a non-negative number held as a fraction:
truncation. -/
def pyInt (q : Nat × Nat) : Nat := q.1 / q.2

/-- The estimator's result dict: `expected_attempts` (`None` for regex),
`estimated_seconds_per_core` as an exact fraction, and the qualitative
description. -/
structure DifficultyEstimate where
  expected_attempts : Option Nat
  estimated_seconds_per_core : Option (Nat × Nat)
  difficulty_description : String
deriving DecidableEq, Repr

/-- The threshold buckets at the end of `estimate_difficulty`; the
comparisons `expected < c` are exact on the fraction `num/den`. -/
def descFor (num den : Nat) : String :=
  if num < 100 * den then "Instant"
  else if num < 100000 * den then "Seconds"
  else if num < 10000000 * den then "Minutes"
  else if num < 1000000000 * den then "Hours"
  else if num < 100000000000 * den then "Days"
  else "Weeks+ (consider a shorter pattern)"

/-- The tail of `estimate_difficulty` shared by the non-regex modes:
`secs = expected / 5000` (a float division, hence `rn64`), the
description, and `int(expected)`. -/
def estimateFrom (expected : Nat × Nat) : DifficultyEstimate :=
  let secs := if 0 < expected.1 then some (rn64 expected.1 (expected.2 * 5000))
              else none
  ⟨some (pyInt expected), secs, descFor expected.1 expected.2⟩

/-- `estimate_difficulty` from `matcher.py`: prefix/suffix keep the exact
integer `16 ** n`; contains divides by `max(1, 32 - n + 1)` in binary64;
regex returns the all-`None` dict. -/
def estimate_difficulty (p : MatchPattern) : DifficultyEstimate :=
  let n := p.pattern.length
  match p.mode with
  | MatchMode.pfx => estimateFrom (16 ^ n, 1)
  | MatchMode.sfx => estimateFrom (16 ^ n, 1)
  | MatchMode.sub => estimateFrom (rn64 (16 ^ n) (max 1 (32 - n + 1)))
  | MatchMode.rex => ⟨none, none, "Cannot estimate for regex"⟩

/-! ## Claim C4 -/

/-- For contains patterns of length below 15 the binary64 quotient
truncates to the exact integer truncation. -/
theorem contains_exact_below_15 : ∀ n < 15,
    pyInt (rn64 (16 ^ n) (max 1 (32 - n + 1)))
      = (16 ^ n) / (max 1 (32 - n + 1)) := by decide

/-- C4 counterexample: for the contains pattern of length 15
`"eeeeeeeeeeeeeee"`, the code reports `int((16**15)/18)` computed in
binary64 floating point, which is 64051194700380384 — not the integer
truncation of the exact quotient `16^15 / 18 = 64051194700380387` that
the claim specifies. -/
theorem estimate_contains_not_exact_truncation :
    (estimate_difficulty ⟨MatchMode.sub, "eeeeeeeeeeeeeee", false⟩).expected_attempts
      = some 64051194700380384
    ∧ (16 ^ 15) / (max 1 (32 - 15 + 1)) = 64051194700380387
    ∧ (estimate_difficulty ⟨MatchMode.sub, "eeeeeeeeeeeeeee", false⟩).expected_attempts
        ≠ some ((16 ^ 15) / (max 1 (32 - 15 + 1))) := by
  refine ⟨by decide, by decide, by decide⟩

/-- C4 amended: prefix or suffix of length `n` reports expected attempts
`16^n` exactly (65536 for `"dead"`); contains of length `n` reports the
`int()` of the binary64 quotient `16^n / max(1, 32-n+1)`, which equals
the exact integer truncation whenever `n ≤ 14` (in particular 8 for
`"be"`); regex reports expected attempts unknown (`None`). -/
theorem estimate_difficulty_amended (p : MatchPattern) :
    ((p.mode = MatchMode.pfx ∨ p.mode = MatchMode.sfx) →
      (estimate_difficulty p).expected_attempts = some (16 ^ p.pattern.length))
    ∧ (p.mode = MatchMode.sub →
        (estimate_difficulty p).expected_attempts
          = some (pyInt (rn64 (16 ^ p.pattern.length)
              (max 1 (32 - p.pattern.length + 1))))
        ∧ (p.pattern.length ≤ 14 →
            (estimate_difficulty p).expected_attempts
              = some ((16 ^ p.pattern.length)
                  / (max 1 (32 - p.pattern.length + 1)))))
    ∧ (p.mode = MatchMode.rex →
        (estimate_difficulty p).expected_attempts = none)
    ∧ (estimate_difficulty ⟨MatchMode.pfx, "dead", false⟩).expected_attempts
        = some 65536
    ∧ (estimate_difficulty ⟨MatchMode.sub, "be", false⟩).expected_attempts
        = some 8 := by
  refine ⟨?_, ?_, ?_, by decide, by decide⟩
  · rintro (hm | hm) <;>
      simp [estimate_difficulty, estimateFrom, pyInt, hm]
  · intro hm
    refine ⟨by simp [estimate_difficulty, estimateFrom, hm], ?_⟩
    intro hn
    have h2 := contains_exact_below_15 p.pattern.length (by omega)
    simp only [Nat.max_eq_right (Nat.le_add_left 1 _)] at h2
    simp [estimate_difficulty, estimateFrom, hm, h2]
  · intro hm
    simp [estimate_difficulty, hm]

/-- Witness for C4 amended, at the contains pattern `"be"`: the reported
expected attempts equal the exact integer truncation `256 / 31 = 8`. -/
theorem estimate_difficulty_amended_witness :
    (estimate_difficulty ⟨MatchMode.sub, "be", false⟩).expected_attempts
      = some ((16 ^ ("be".length)) / (max 1 (32 - "be".length + 1))) :=
  ((estimate_difficulty_amended ⟨MatchMode.sub, "be", false⟩).2.1 rfl).2
    (by decide)

/-! ## Claims C2 and C9: validate_hex_pattern -/

instance {ε α : Type} [DecidableEq ε] [DecidableEq α] :
    DecidableEq (Except ε α) := fun x y =>
  match x, y with
  | Except.ok a, Except.ok b =>
    if h : a = b then isTrue (by rw [h])
    else isFalse (by intro he; cases he; exact h rfl)
  | Except.error a, Except.error b =>
    if h : a = b then isTrue (by rw [h])
    else isFalse (by intro he; cases he; exact h rfl)
  | Except.ok _, Except.error _ => isFalse (by intro he; cases he)
  | Except.error _, Except.ok _ => isFalse (by intro he; cases he)

/-- Lowercasing does not change whether a character is whitespace. -/
theorem pyIsSpace_pyLowerChar (c : Char) :
    pyIsSpace (pyLowerChar c) = pyIsSpace c := by
  unfold pyLowerChar
  split <;> rfl

/-- A case-insensitive hex digit lowercases to a lowercase hex digit. -/
theorem hexCI_lower (c : Char) (h : isHexCI c = true) :
    isHexLower (pyLowerChar c) = true := by
  have h' : c ∈ hexDigitsLower ∨ c ∈ hexDigitsUpper := by
    simpa [isHexCI] using h
  rcases h' with h' | h' <;> fin_cases h' <;> decide

/-- A case-insensitive hex digit is not whitespace. -/
theorem hexCI_not_space (c : Char) (h : isHexCI c = true) :
    pyIsSpace c = false := by
  have h' : c ∈ hexDigitsLower ∨ c ∈ hexDigitsUpper := by
    simpa [isHexCI] using h
  rcases h' with h' | h' <;> fin_cases h' <;> decide

/-- `dropWhile` is the identity on a list none of whose elements satisfy
the predicate. -/
theorem dropWhile_all_false {p : Char → Bool} (l : List Char)
    (h : ∀ c ∈ l, p c = false) : l.dropWhile p = l := by
  cases l with
  | nil => rfl
  | cons a t =>
    rw [List.dropWhile_cons, h a (List.mem_cons_self a t)]
    simp

/-- Stripping a string with no whitespace is the identity. -/
theorem pyStrip_no_space (l : List Char)
    (h : ∀ c ∈ l, pyIsSpace c = false) : pyStrip l = l := by
  unfold pyStrip
  rw [dropWhile_all_false l h,
    dropWhile_all_false l.reverse (fun c hc => h c (List.mem_reverse.mp hc)),
    List.reverse_reverse]

/-- Stripping an all-whitespace string yields the empty string. -/
theorem pyStrip_all_space (l : List Char)
    (h : ∀ c ∈ l, pyIsSpace c = true) : pyStrip l = [] := by
  unfold pyStrip
  rw [List.dropWhile_eq_nil_iff.mpr h]
  rfl

/-- `pyIsSpace ∘ pyLowerChar = pyIsSpace` as functions. -/
theorem pyIsSpace_comp_pyLowerChar :
    (pyIsSpace ∘ pyLowerChar) = pyIsSpace :=
  funext pyIsSpace_pyLowerChar

/-- Lowercasing commutes with stripping. -/
theorem pyStrip_map_pyLowerChar (l : List Char) :
    pyStrip (l.map pyLowerChar) = (pyStrip l).map pyLowerChar := by
  unfold pyStrip
  rw [List.dropWhile_map, pyIsSpace_comp_pyLowerChar, ← List.map_reverse,
    List.dropWhile_map, pyIsSpace_comp_pyLowerChar, ← List.map_reverse]

/-- Shared helper: when the stripped input is non-empty, case-insensitive
hex, and at most 32 characters, validation succeeds with the lowercased
stripped input. -/
theorem validate_ok_of_clean (s : String)
    (h1 : pyStrip s.data ≠ [])
    (h2 : (pyStrip s.data).all isHexCI = true)
    (h3 : (pyStrip s.data).length ≤ 32) :
    validate_hex_pattern s
      = Except.ok (String.mk ((pyStrip s.data).map pyLowerChar)) := by
  have hcomm := pyStrip_map_pyLowerChar s.data
  have hCI : ∀ c ∈ pyStrip s.data, isHexCI c = true := List.all_eq_true.mp h2
  have hall : ((pyStrip s.data).map pyLowerChar).all isHexLower = true := by
    rw [List.all_map]
    exact List.all_eq_true.mpr (fun c hc => hexCI_lower c (hCI c hc))
  have hne : (pyStrip s.data).map pyLowerChar ≠ [] := by
    simpa [List.map_eq_nil_iff] using h1
  have hlen : ¬ ((pyStrip s.data).map pyLowerChar).length > 32 := by
    simpa using h3
  unfold validate_hex_pattern
  rw [hcomm, if_neg hne, if_neg (by simp [hall]), if_neg hlen]

/-- C2 counterexample: the input `" a"` contains the character `' '`,
which is outside `0-9a-f` case-insensitively, yet `validate_hex_pattern`
does not raise — it strips the whitespace and returns `"a"`. -/
theorem validate_accepts_nonhex_input :
    validate_hex_pattern " a" = Except.ok "a"
    ∧ ' ' ∈ (" a" : String).data ∧ isHexCI ' ' = false := by
  exact ⟨by decide, by decide, by decide⟩

/-- C2 amended: for every non-empty valid hex string (characters in
`0-9a-fA-F`) of length at most 32, `validate_hex_pattern` returns its
lowercase form; and it raises *exactly when* the lowercased *stripped*
input is empty, contains a character outside `0-9a-f`, or has length
above 32 — an iff, so a clean stripped input is never rejected.  (The
original claim, quantifying the failure over the raw input rather than
its stripped form, is refuted by `validate_accepts_nonhex_input`.) -/
theorem validate_hex_pattern_amended (s : String) :
    (s.data ≠ [] → s.data.all isHexCI = true → s.data.length ≤ 32 →
      validate_hex_pattern s = Except.ok (String.mk (s.data.map pyLowerChar)))
    ∧ ((∃ e, validate_hex_pattern s = Except.error e)
        ↔ (pyStrip (s.data.map pyLowerChar) = []
           ∨ (pyStrip (s.data.map pyLowerChar)).all isHexLower = false
           ∨ (pyStrip (s.data.map pyLowerChar)).length > 32)) := by
  constructor
  · intro h1 h2 h3
    have hns : ∀ c ∈ s.data, pyIsSpace c = false :=
      fun c hc => hexCI_not_space c (List.all_eq_true.mp h2 c hc)
    have hstrip : pyStrip s.data = s.data := pyStrip_no_space s.data hns
    have h := validate_ok_of_clean s (by rw [hstrip]; exact h1)
      (by rw [hstrip]; exact h2) (by rw [hstrip]; exact h3)
    rwa [hstrip] at h
  · unfold validate_hex_pattern
    by_cases h0 : pyStrip (s.data.map pyLowerChar) = []
    · simp [h0]
    · by_cases h1 : (pyStrip (s.data.map pyLowerChar)).all isHexLower = true
      · by_cases h2 : (pyStrip (s.data.map pyLowerChar)).length > 32
        · simp [h0, h1, h2]
        · simp [h0, h1, h2]
      · have h1' : (pyStrip (s.data.map pyLowerChar)).all isHexLower = false :=
          Bool.eq_false_iff.mpr h1
        simp [h0, h1']

/-- Witness for C2 amended: `"Ab"` is valid case-insensitive hex and
validates to its lowercase form `"ab"`. -/
theorem validate_hex_pattern_amended_witness :
    validate_hex_pattern "Ab"
      = Except.ok (String.mk (("Ab" : String).data.map pyLowerChar)) :=
  (validate_hex_pattern_amended "Ab").1 (by decide) (by decide) (by decide)

/-- C9: validation strips surrounding whitespace before checking: any
input whose stripped form is a non-empty valid hex string of length at
most 32 is accepted, returning the lowercased stripped form; an input of
only whitespace is rejected as empty. -/
theorem validate_strips_whitespace (s : String) :
    (pyStrip s.data ≠ [] → (pyStrip s.data).all isHexCI = true →
      (pyStrip s.data).length ≤ 32 →
      validate_hex_pattern s
        = Except.ok (String.mk ((pyStrip s.data).map pyLowerChar)))
    ∧ (s.data.all pyIsSpace = true →
        validate_hex_pattern s = Except.error "Pattern cannot be empty.") := by
  constructor
  · exact validate_ok_of_clean s
  · intro h
    have hnil : pyStrip (s.data.map pyLowerChar) = [] := by
      rw [pyStrip_map_pyLowerChar,
        pyStrip_all_space s.data (List.all_eq_true.mp h)]
      rfl
    unfold validate_hex_pattern
    rw [if_pos hnil]

/-- Witness for C9: `" aB "` strips to `"aB"` and validates to `"ab"`. -/
theorem validate_strips_whitespace_witness :
    validate_hex_pattern " aB "
      = Except.ok (String.mk ((pyStrip (" aB " : String).data).map pyLowerChar)) :=
  (validate_strips_whitespace " aB ").1 (by decide) (by decide) (by decide)

/-! ## worker.py: search_worker as a small-step transition system

`search_worker` runs `while not stop_event.is_set():` over batches of
`batch_size` candidate generations; on a match it pushes the result, sets
the stop event, flushes its local count and returns; at each batch
boundary it flushes and zeroes the local count; after observing the stop
event it flushes any remainder and exits.  The system state is the shared
stop event, result queue and attempt counter plus one program counter,
local count, found-result and has-set-event flag per worker.  Results are
an abstract type `R`.  The shared counter is a `multiprocessing.Value("Q")`
— an unsigned 64-bit cell that wraps silently on overflow — so every
`counter.value += local_count` is embedded as addition modulo `2^64`;
each lock-guarded flush is one atomic step. -/

/-- The capacity of the `Value("Q")` counter cell: `2^64`. -/
def M64 : Nat := 18446744073709551616

/-- Program counter positions of `search_worker`. -/
inductive WPC (R : Type) where
  | loopHead
  | inBatch (k : Nat)
  | atPut (r : R)
  | atSet (r : R)
  | atMatchFlush (r : R)
  | atExitFlush
  | done

/-- Per-worker state: position, `local_count`, whether this worker has
executed `stop_event.set()` on its match path, and the result it put. -/
structure WState (R : Type) where
  pc : WPC R
  localCount : Nat
  hasSet : Bool
  found : Option R

/-- Shared system state for `n` workers. -/
structure SysState (n : Nat) (R : Type) where
  workers : Fin n → WState R
  ev : Bool
  queue : List R
  counter : Nat

/-- Initial state: all workers at the loop head with zero local count,
event clear, queue empty, counter zero. -/
def initSys (n : Nat) (R : Type) : SysState n R :=
  ⟨fun _ => ⟨WPC.loopHead, 0, false, none⟩, false, [], 0⟩

/-- `batch_size` default of `search_worker`. -/
def batchSize : Nat := 500



/-- One interleaved step of the worker system, mirroring the statements
of `search_worker`: evaluating the `while` guard, one candidate
generation (matching, with a nondeterministic result `r`, or not),
`result_queue.put`, `stop_event.set()`, and the three counter flushes. -/
inductive Step {n : Nat} {R : Type} : SysState n R → SysState n R → Prop where
  | checkRun (s : SysState n R) (i : Fin n)
      (hpc : (s.workers i).pc = WPC.loopHead) (hev : s.ev = false) :
      Step s
        { s with
          workers := Function.update s.workers i
            { s.workers i with pc := WPC.inBatch batchSize } }
  | checkExit (s : SysState n R) (i : Fin n)
      (hpc : (s.workers i).pc = WPC.loopHead) (hev : s.ev = true) :
      Step s
        { s with
          workers := Function.update s.workers i
            { s.workers i with pc := WPC.atExitFlush } }
  | genNoMatch (s : SysState n R) (i : Fin n) (k : Nat)
      (hpc : (s.workers i).pc = WPC.inBatch (k + 1)) :
      Step s
        { s with
          workers := Function.update s.workers i
            { s.workers i with
              pc := WPC.inBatch k
              localCount := (s.workers i).localCount + 1 } }
  | genMatch (s : SysState n R) (i : Fin n) (k : Nat) (r : R)
      (hpc : (s.workers i).pc = WPC.inBatch (k + 1)) :
      Step s
        { s with
          workers := Function.update s.workers i
            { s.workers i with
              pc := WPC.atPut r
              localCount := (s.workers i).localCount + 1 } }
  | put (s : SysState n R) (i : Fin n) (r : R)
      (hpc : (s.workers i).pc = WPC.atPut r) :
      Step s
        { s with
          workers := Function.update s.workers i
            { s.workers i with pc := WPC.atSet r, found := some r }
          queue := s.queue ++ [r] }
  | setEv (s : SysState n R) (i : Fin n) (r : R)
      (hpc : (s.workers i).pc = WPC.atSet r) :
      Step s
        { s with
          workers := Function.update s.workers i
            { s.workers i with pc := WPC.atMatchFlush r, hasSet := true }
          ev := true }
  | matchFlush (s : SysState n R) (i : Fin n) (r : R)
      (hpc : (s.workers i).pc = WPC.atMatchFlush r) :
      Step s
        { s with
          workers := Function.update s.workers i
            { s.workers i with pc := WPC.done }
          counter := (s.counter + (s.workers i).localCount) % M64 }
  | batchFlush (s : SysState n R) (i : Fin n)
      (hpc : (s.workers i).pc = WPC.inBatch 0) :
      Step s
        { s with
          workers := Function.update s.workers i
            { s.workers i with pc := WPC.loopHead, localCount := 0 }
          counter := (s.counter + (s.workers i).localCount) % M64 }
  | exitFlush (s : SysState n R) (i : Fin n)
      (hpc : (s.workers i).pc = WPC.atExitFlush) :
      Step s
        { s with
          workers := Function.update s.workers i
            { s.workers i with pc := WPC.done }
          counter := if (s.workers i).localCount > 0 then
              (s.counter + (s.workers i).localCount) % M64
            else s.counter }

/-! ## Claim C8 -/

/-- A state of a single worker about to flush its match count while the
shared 64-bit counter holds its maximal value `2^64 - 1`. -/
def wrapState : SysState 1 Unit :=
  ⟨fun _ => ⟨WPC.atMatchFlush (), 1, true, some ()⟩, true, [()], M64 - 1⟩

/-- C8 counterexample: the `Value("Q")` counter wraps at `2^64`.  From
`wrapState`, the match flush `counter.value += 1` stores
`(2^64 - 1 + 1) mod 2^64 = 0`, so this step strictly decreases the
counter — the claim's unconditional monotonicity fails at the wrap. -/
theorem counter_wraps_at_uint64 :
    Step wrapState
      { wrapState with
        workers := Function.update wrapState.workers 0
          { wrapState.workers 0 with pc := WPC.done }
        counter := (wrapState.counter + (wrapState.workers 0).localCount) % M64 }
    ∧ (wrapState.counter + (wrapState.workers 0).localCount) % M64
        < wrapState.counter :=
  ⟨Step.matchFlush wrapState 0 () rfl, by decide⟩

/-- C8 amended: every write to the shared counter adds a non-negative
locally-accumulated count modulo `2^64`; across every step in which the
write does not overflow the 64-bit cell — in real runs the total attempt
count stays astronomically below `2^64` — the counter never decreases. -/
theorem counter_monotone_no_overflow {n : Nat} {R : Type}
    {s s' : SysState n R} (h : Step s s')
    (hov : ∀ i, s.counter + (s.workers i).localCount < M64) :
    s.counter ≤ s'.counter := by
  cases h with
  | checkRun i hpc hev => exact Nat.le_refl _
  | checkExit i hpc hev => exact Nat.le_refl _
  | genNoMatch i k hpc => exact Nat.le_refl _
  | genMatch i k r hpc => exact Nat.le_refl _
  | put i r hpc => exact Nat.le_refl _
  | setEv i r hpc => exact Nat.le_refl _
  | matchFlush i r hpc =>
    dsimp
    rw [Nat.mod_eq_of_lt (hov i)]
    omega
  | batchFlush i hpc =>
    dsimp
    rw [Nat.mod_eq_of_lt (hov i)]
    omega
  | exitFlush i hpc =>
    dsimp
    split
    · rw [Nat.mod_eq_of_lt (hov i)]
      omega
    · exact Nat.le_refl _

/-- A state of a single worker at a batch boundary with a full local
count of 500, counter at 7. -/
def flushState : SysState 1 Unit :=
  ⟨fun _ => ⟨WPC.inBatch 0, 500, false, none⟩, false, [], 7⟩

/-- Witness for C8 amended: an actual non-overflowing batch flush of 500
attempts does not decrease the counter. -/
theorem counter_monotone_no_overflow_witness :
    flushState.counter
      ≤ ({ flushState with
           workers := Function.update flushState.workers 0
             { flushState.workers 0 with
               pc := WPC.loopHead, localCount := 0 }
           counter := (flushState.counter
             + (flushState.workers 0).localCount) % M64 } :
          SysState 1 Unit).counter :=
  counter_monotone_no_overflow (Step.batchFlush flushState 0 rfl) (by decide)

/-! ## Claim C10 -/

/-- Per-worker invariant, relative to the queue: a worker at `atSet r`
has already enqueued `r`; a worker past `stop_event.set()` (flag
`hasSet`) has its result in the queue. -/
def wInv {R : Type} (w : WState R) (q : List R) : Prop :=
  match w.pc with
  | WPC.atPut _ => w.hasSet = false
  | WPC.atSet r => w.found = some r ∧ r ∈ q ∧ w.hasSet = false
  | WPC.atMatchFlush r => w.found = some r ∧ r ∈ q ∧ w.hasSet = true
  | WPC.done => w.hasSet = true → ∃ r, w.found = some r ∧ r ∈ q
  | _ => w.hasSet = false

/-- System invariant: every worker satisfies `wInv`. -/
def SysInv {n : Nat} {R : Type} (s : SysState n R) : Prop :=
  ∀ i, wInv (s.workers i) s.queue

/-- `wInv` is stable under enqueuing more results. -/
theorem wInv_queue_mono {R : Type} (w : WState R) (q : List R) (r : R)
    (h : wInv w q) : wInv w (q ++ [r]) := by
  unfold wInv at h ⊢
  cases hpc : w.pc <;> rw [hpc] at h
  · exact h
  · exact h
  · exact h
  · exact ⟨h.1, List.mem_append_left _ h.2.1, h.2.2⟩
  · exact ⟨h.1, List.mem_append_left _ h.2.1, h.2.2⟩
  · exact h
  · intro hset
    obtain ⟨r', hf, hm⟩ := h hset
    exact ⟨r', hf, List.mem_append_left _ hm⟩

/-- The invariant holds initially. -/
theorem sysInv_init {n : Nat} {R : Type} : SysInv (initSys n R) := by
  intro i
  unfold initSys wInv
  simp

/-- The invariant is preserved by every step. -/
theorem sysInv_step {n : Nat} {R : Type} {s s' : SysState n R}
    (hs : Step s s') (h : SysInv s) : SysInv s' := by
  cases hs with
  | checkRun i hpc hev =>
    intro j
    rcases eq_or_ne j i with rfl | hne
    · have hj := h j
      unfold wInv at hj ⊢
      rw [hpc] at hj
      simp [Function.update_same, hj]
    · simpa [Function.update_noteq hne] using h j
  | checkExit i hpc hev =>
    intro j
    rcases eq_or_ne j i with rfl | hne
    · have hj := h j
      unfold wInv at hj ⊢
      rw [hpc] at hj
      simp [Function.update_same, hj]
    · simpa [Function.update_noteq hne] using h j
  | genNoMatch i k hpc =>
    intro j
    rcases eq_or_ne j i with rfl | hne
    · have hj := h j
      unfold wInv at hj ⊢
      rw [hpc] at hj
      simp [Function.update_same, hj]
    · simpa [Function.update_noteq hne] using h j
  | genMatch i k r hpc =>
    intro j
    rcases eq_or_ne j i with rfl | hne
    · have hj := h j
      unfold wInv at hj ⊢
      rw [hpc] at hj
      simp [Function.update_same, hj]
    · simpa [Function.update_noteq hne] using h j
  | put i r hpc =>
    intro j
    rcases eq_or_ne j i with rfl | hne
    · have hj := h j
      unfold wInv at hj ⊢
      rw [hpc] at hj
      simp [Function.update_same, hj]
    · have hj := wInv_queue_mono _ _ r (h j)
      simpa [Function.update_noteq hne] using hj
  | setEv i r hpc =>
    intro j
    rcases eq_or_ne j i with rfl | hne
    · have hj := h j
      unfold wInv at hj ⊢
      rw [hpc] at hj
      simp [Function.update_same, hj.1, hj.2.1]
    · simpa [Function.update_noteq hne] using h j
  | matchFlush i r hpc =>
    intro j
    rcases eq_or_ne j i with rfl | hne
    · have hj := h j
      unfold wInv at hj ⊢
      rw [hpc] at hj
      simp only [Function.update_same]
      intro _
      exact ⟨r, hj.1, hj.2.1⟩
    · simpa [Function.update_noteq hne] using h j
  | batchFlush i hpc =>
    intro j
    rcases eq_or_ne j i with rfl | hne
    · have hj := h j
      unfold wInv at hj ⊢
      rw [hpc] at hj
      simp [Function.update_same, hj]
    · simpa [Function.update_noteq hne] using h j
  | exitFlush i hpc =>
    intro j
    rcases eq_or_ne j i with rfl | hne
    · have hj := h j
      unfold wInv at hj ⊢
      rw [hpc] at hj
      simp [Function.update_same, hj]
    · simpa [Function.update_noteq hne] using h j

/-- C10: in every reachable state, a worker that has set the stop event
on its match path has already enqueued its result: the `put` precedes
`stop_event.set()`, so the signal is never observed set by a
match-finding worker whose result is absent from the channel, and a
subsequent drain finds at least that result. -/
theorem match_result_enqueued_before_set {n : Nat} {R : Type}
    (s : SysState n R)
    (h : Relation.ReflTransGen Step (initSys n R) s) :
    ∀ i, (s.workers i).hasSet = true →
      ∃ r, (s.workers i).found = some r ∧ r ∈ s.queue := by
  have hinv : SysInv s := by
    induction h with
    | refl => exact sysInv_init
    | tail _ hstep ih => exact sysInv_step hstep ih
  intro i hset
  have hj := hinv i
  unfold wInv at hj
  rcases hpc : (s.workers i).pc with _ | k | r | r | r | _ | _ <;>
    rw [hpc] at hj
  · exact absurd hset (by simp [hj])
  · exact absurd hset (by simp [hj])
  · exact absurd hset (by simp [hj])
  · exact absurd hset (by simp [hj.2.2])
  · exact ⟨r, hj.1, hj.2.1⟩
  · exact absurd hset (by simp [hj])
  · exact hj hset

/-- The four-step trace of one worker finding a match immediately:
enter the batch, generate a matching candidate, `put` the result, then
`set` the stop event.  `traceS4` is a reachable state in which the event
has been set by a match-finding worker. -/
def traceS0 : SysState 1 Unit := initSys 1 Unit

def traceS1 : SysState 1 Unit :=
  { traceS0 with
    workers := Function.update traceS0.workers 0
      { traceS0.workers 0 with pc := WPC.inBatch batchSize } }

def traceS2 : SysState 1 Unit :=
  { traceS1 with
    workers := Function.update traceS1.workers 0
      { traceS1.workers 0 with
        pc := WPC.atPut ()
        localCount := (traceS1.workers 0).localCount + 1 } }

def traceS3 : SysState 1 Unit :=
  { traceS2 with
    workers := Function.update traceS2.workers 0
      { traceS2.workers 0 with pc := WPC.atSet (), found := some () }
    queue := traceS2.queue ++ [()] }

def traceS4 : SysState 1 Unit :=
  { traceS3 with
    workers := Function.update traceS3.workers 0
      { traceS3.workers 0 with pc := WPC.atMatchFlush (), hasSet := true }
    ev := true }

/-- Witness for C10 at the reachable state `traceS4`, where the single
worker has set the event on its match path (`hasSet = true`): its result
is found in the queue. -/
theorem match_result_enqueued_before_set_witness :
    ((traceS4).workers 0).hasSet = true ∧
    (∃ r, ((traceS4).workers 0).found = some r ∧ r ∈ (traceS4).queue) :=
  ⟨rfl,
    match_result_enqueued_before_set traceS4
      (Relation.ReflTransGen.tail
        (Relation.ReflTransGen.tail
          (Relation.ReflTransGen.tail
            (Relation.ReflTransGen.tail Relation.ReflTransGen.refl
              (Step.checkRun traceS0 0 rfl rfl))
            (Step.genMatch traceS1 0 499 () rfl))
          (Step.put traceS2 0 () rfl))
        (Step.setEv traceS3 0 () rfl))
      0 rfl⟩
